import Mathlib

/-!
Shallow embedding of src/worker/worker.js: the SELEKT photo-session API,
a single Cloudflare Worker fetch handler layered over an R2 bucket
(env.PHOTOS).  The four operations of the handler — create session,
get session, upload photo, fetch asset — are modelled as pure functions
over an explicit store.

Modelling conventions:
* The R2 bucket is a `Store`: an association list from string keys to
  stored objects.  `put` conses a binding and `get` takes the newest
  binding for a key, so a second put on the same key overwrites the
  first, matching R2 single-key put/get.
* ISO-8601 timestamps are modelled as epoch milliseconds (`Nat`);
  JavaScript Date comparison on such values is numeric.
* A stored body is the JSON serialization of a session metadata
  document (written by JSON.stringify, recovered exactly by JSON.parse),
  or some other syntactically valid JSON value (which JSON.parse also
  recovers — the worker never validates the shape — modelled through
  the members the worker reads from it), or bytes that are not valid
  JSON, on which JSON.parse throws.
* Numeric environment variables are modelled as parsed numbers when set
  (the worker applies parseInt to them); template interpolation of an
  unset variable renders the text "undefined".
* Randomness (generateId) and the clock (Date.now) are inputs of the
  functions that use them.
* Responses are reduced to what the handler produces: a success payload,
  or errorResponse(message, status).  The messages of engine-thrown
  exceptions (the TypeError of a null dereference, the SyntaxError of
  JSON.parse, the InvalidCharacterError of atob) are engine-defined
  text; they are modelled by fixed constants and never inspected —
  only the fact that they reach the generic catch-all (status 500)
  matters.
-/

namespace Selekt

/-- One entry of the photos list, pushed at worker.js lines 155-160. -/
structure PhotoRecord where
  fname : String
  groupId : String
  size : Nat
  type : String
deriving DecidableEq

/-- The session metadata document stored at sessions/{id}/meta.json
(worker.js lines 55-64; the source variable is `meta`).  Timestamps are
epoch milliseconds. -/
structure SessionMeta where
  id : String
  title : String
  photographer : String
  groups : List String
  createdAt : Nat
  expiresAt : Nat
  photoCount : Nat
  photos : List PhotoRecord
deriving DecidableEq

/-- A syntactically valid JSON value that is not a well-formed Session
document, represented through the observations the worker makes of a
parsed metadata document.  `expiresAt` is the observation of
new Date(value.expiresAt): `some t` when the member yields a valid
date, `none` when it yields NaN (member absent or unparseable), on
which every date comparison is false.  `photoCount` is the observation
of the relational coercion of value.photoCount: `some n` when it
coerces to the number n, `none` when it coerces to NaN, on which the
quota comparison is false.  The photos member of such a value does not
support push: a parsed value whose photos member is an array and whose
photoCount is a number is operated on by the worker exactly as a
well-formed document and is represented by the `.doc` constructor; a
value with a photos array but non-numeric photoCount is outside the
model — no claim concerns it. -/
structure JunkDoc where
  expiresAt : Option Nat := none
  photoCount : Option Nat := none
deriving DecidableEq

/-- A stored body, as JSON.parse sees it: the serialization of a
well-formed Session document (`.doc`), some other syntactically valid
JSON value (`.json`), or bytes that are not valid JSON (`.bytes`), on
which JSON.parse throws a SyntaxError. -/
inductive BlobBody where
  | doc (m : SessionMeta)
  | json (j : JunkDoc)
  | bytes (data : List Nat)
deriving DecidableEq

/-- The result of a successful JSON.parse of a stored metadata body:
either a well-formed Session document or some other JSON value. -/
inductive ParsedMeta where
  | session (m : SessionMeta)
  | junk (j : JunkDoc)
deriving DecidableEq

/-- JSON.parse of a stored body: `none` models the SyntaxError thrown
on bytes that are not valid JSON; everything else parses, whether or
not it is a well-formed Session document (the worker never validates
the shape). -/
def jsonParse : BlobBody → Option ParsedMeta
  | .doc m => some (.session m)
  | .json j => some (.junk j)
  | .bytes _ => none

/-- The stored body read back as a well-formed Session document:
`some m` exactly when the body is the serialization of one.  Used in
the hypotheses of the claims that presuppose a well-formed stored
document. -/
def parseMeta : BlobBody → Option SessionMeta
  | .doc m => some m
  | .json _ => none
  | .bytes _ => none

/-- The expiresAt member of a parsed metadata value, as observed by
new Date at worker.js line 85: a well-formed document always yields a
valid date; a junk value yields its recorded observation. -/
def ParsedMeta.expiresAt : ParsedMeta → Option Nat
  | .session m => some m.expiresAt
  | .junk j => j.expiresAt

/-- new Date(x) < new Date(now): numeric comparison when x yields a
valid date; false when it yields NaN (absent or unparseable member). -/
def jsDateLt : Option Nat → Nat → Bool
  | some t, now => decide (t < now)
  | none, _ => false

/-- The relational comparison x >= n for the observed photoCount of a
junk document (worker.js line 104): false when the coercion yields
NaN. -/
def jsGeOpt : Option Nat → Nat → Bool
  | some v, n => decide (v ≥ n)
  | none, _ => false

/-- A stored R2 object: body, httpMetadata.contentType, and the two
customMetadata attributes the worker sets on photo objects
(worker.js lines 127-130). -/
structure Blob where
  body : BlobBody
  contentType : Option String
  customGroupId : Option String := none
  customOriginalName : Option String := none
deriving DecidableEq

/-- The R2 bucket env.PHOTOS. -/
abbrev Store := List (String × Blob)

/-- env.PHOTOS.get: the newest binding for the key, if any. -/
def Store.get : Store → String → Option Blob
  | [], _ => none
  | (k, b) :: rest, key => if k = key then some b else Store.get rest key

/-- env.PHOTOS.put: the new binding shadows any older one for the key. -/
def Store.put (st : Store) (key : String) (b : Blob) : Store := (key, b) :: st

/-- Key of the session metadata document (worker.js lines 67, 79, 98, 163). -/
def metaKey (sessionId : String) : String :=
  "sessions/" ++ sessionId ++ "/meta.json"

/-- Key of an original photo (worker.js lines 125, 179, 201): the
filename is concatenated verbatim. -/
def photoKey (sessionId fname : String) : String :=
  "sessions/" ++ sessionId ++ "/photos/" ++ fname

/-- Key of a thumbnail (worker.js lines 147, 196). -/
def thumbKey (sessionId fname : String) : String :=
  "sessions/" ++ sessionId ++ "/thumbs/" ++ fname

/-- Worker environment bindings.  Numeric configuration variables are
modelled as parsed numbers when set; the worker reads them through
parseInt(x || default). -/
structure Env where
  SESSION_TTL_DAYS : Option Nat := none
  MAX_PHOTOS_PER_SESSION : Option Nat := none
  MAX_FILE_SIZE_MB : Option Nat := none
deriving DecidableEq

/-- parseInt(env.MAX_PHOTOS_PER_SESSION || 50), worker.js line 103. -/
def maxPhotosOf (env : Env) : Nat := env.MAX_PHOTOS_PER_SESSION.getD 50

/-- parseInt(env.MAX_FILE_SIZE_MB || 25) * 1024 * 1024, worker.js line 118. -/
def maxSizeOf (env : Env) : Nat := env.MAX_FILE_SIZE_MB.getD 25 * 1024 * 1024

/-- Template interpolation of the raw environment variable at
worker.js line 120: an unset variable renders as "undefined". -/
def envNumStr : Option Nat → String
  | some n => toString n
  | none => "undefined"

/-- JavaScript x || d for a string x: the empty string is falsy. -/
def jsOr (s d : String) : String := if s = "" then d else s

/-- JavaScript x || d where x may also be null or undefined, as in
obj.httpMetadata?.contentType || d. -/
def jsOrOpt : Option String → String → String
  | some s, d => jsOr s d
  | none, d => d

/-- A worker response, reduced to what the claims concern: the success
payload, or errorResponse(message, status). -/
inductive Resp (α : Type) where
  | ok (val : α)
  | err (message : String) (status : Nat)
deriving DecidableEq

/-- The message built by the catch-all handler, worker.js line 227. -/
def internalMsg (e : String) : String := "Internal server error: " ++ e

/-- Model of the engine message of the SyntaxError that JSON.parse
throws on malformed input; the exact text is engine-defined and is
never inspected by the worker. -/
def jsonParseErrorMessage : String := "Unexpected token in JSON"

/-- Model of the engine message of the TypeError thrown when `file` is
null and worker.js line 111 reads file.name; the exact text is
engine-defined and is never inspected by the worker. -/
def typeErrorNullName : String :=
  "Cannot read properties of null reading name"

/-- Model of the engine message of the InvalidCharacterError that atob
throws on a malformed base64 string. -/
def atobErrorMessage : String := "Invalid character"

/-- Model of the engine message of the TypeError thrown when worker.js
line 155 applies push to a photos member that is not an array; the
exact text is engine-defined and is never inspected by the worker. -/
def typeErrorPushMessage : String := "push is not a function"

/-- Request body of POST /api/session; absent JSON fields are `none`. -/
structure CreateBody where
  title : Option String := none
  photographer : Option String := none
  groups : Option (List String) := none
deriving DecidableEq

/-- POST /api/session (worker.js lines 48-73).  The generated identifier
and the current time are inputs; the result is the response payload
(sessionId, expiresAt) together with the bucket after the single
metadata write. -/
def createSession (env : Env) (store : Store) (sessionId : String)
    (body : CreateBody) (now : Nat) : (String × Nat) × Store :=
  let ttlDays := env.SESSION_TTL_DAYS.getD 7
  let expiresAt := now + ttlDays * 86400000
  let meta : SessionMeta :=
    { id := sessionId
    , title := body.title.getD ""
    , photographer := body.photographer.getD ""
    , groups := body.groups.getD []
    , createdAt := now
    , expiresAt := expiresAt
    , photoCount := 0
    , photos := [] }
  ((sessionId, expiresAt),
    Store.put store (metaKey sessionId)
      { body := .doc meta, contentType := some "application/json" })

/-- GET /api/session/:id (worker.js lines 76-90).  `now` is Date.now in
epoch milliseconds.  A parse throw reaches the catch-all (500); a value
that parses — well-formed or not — is gated only by the
new Date(meta.expiresAt) < new Date() comparison of line 85 and is
otherwise returned as the response body.  The store is returned
alongside the response; every branch returns it unchanged, as the
branch performs no put. -/
def getSession (store : Store) (sessionId : String) (now : Nat) :
    Resp ParsedMeta × Store :=
  match Store.get store (metaKey sessionId) with
  | none => (.err "Session not found" 404, store)
  | some obj =>
    match jsonParse obj.body with
    | none => (.err (internalMsg jsonParseErrorMessage) 500, store)
    | some meta =>
      if jsDateLt meta.expiresAt now then (.err "Session expired" 410, store)
      else (.ok meta, store)

/-- The `file` part of the upload form: name, size and declared media
type attributes, and the byte content of the stream. -/
structure FileData where
  name : String
  size : Nat
  type : String
  content : List Nat
deriving DecidableEq

/-- The `thumb` form field: either an inline string (possibly a base64
data URL) or a blob part whose stream is written directly. -/
inductive ThumbData where
  | str (s : String)
  | blob (content : List Nat)
deriving DecidableEq

/-- The multipart form of POST .../upload (worker.js lines 109-113);
formData.get of an absent field returns null, modelled as `none`. -/
structure FormData where
  file : Option FileData := none
  fname : Option String := none
  groupId : Option String := none
  thumb : Option ThumbData := none
deriving DecidableEq

/-- worker.js line 111: formData.get(fname) || file.name.  When the
fname field is falsy and `file` is null, reading file.name throws a
TypeError, which the catch-all turns into a 500 response. -/
def resolveFname (form : FormData) : Except String String :=
  match form.fname with
  | some s =>
    if s = "" then
      match form.file with
      | some f => .ok f.name
      | none => .error typeErrorNullName
    else .ok s
  | none =>
    match form.file with
    | some f => .ok f.name
    | none => .error typeErrorNullName

/-- The base64 alphabet used by atob. -/
def b64Alphabet : List Char :=
  "ABCDEFGHIJKLMNOPQRSTUVWXYZabcdefghijklmnopqrstuvwxyz0123456789+/".data

/-- Position of a character in the base64 alphabet. -/
def b64ValAux : List Char → Nat → Char → Option Nat
  | [], _, _ => none
  | a :: rest, i, c => if a = c then some i else b64ValAux rest (i + 1) c

def b64Val (c : Char) : Option Nat := b64ValAux b64Alphabet 0 c

/-- Strip up to two trailing padding characters. -/
def b64DropPadding (l : List Char) : List Char :=
  match l.reverse with
  | '=' :: '=' :: r => r.reverse
  | '=' :: r => r.reverse
  | _ => l

/-- Reassemble 6-bit groups into bytes (the inverse of the base64
transform). -/
def sextetsToBytes : List Nat → List Nat
  | a :: b :: c :: d :: rest =>
    (a * 4 + b / 16) % 256 :: ((b % 16) * 16 + c / 4) % 256 ::
      ((c % 4) * 64 + d) % 256 :: sextetsToBytes rest
  | [a, b] => [(a * 4 + b / 16) % 256]
  | [a, b, c] => [(a * 4 + b / 16) % 256, ((b % 16) * 16 + c / 4) % 256]
  | _ => []

/-- atob: reverse the standard base64 transform; `none` models the
thrown InvalidCharacterError (atob leniency towards whitespace is not
modelled; no claim depends on it). -/
def jsAtob (s : String) : Option (List Nat) :=
  let body := b64DropPadding s.data
  if body.length % 4 = 1 then none
  else (body.mapM b64Val).map sextetsToBytes

/-- Drop an expected literal prefix from a character list. -/
def dropPrefixL : List Char → List Char → Option (List Char)
  | [], l => some l
  | _ :: _, [] => none
  | p :: ps, c :: cs => if c = p then dropPrefixL ps cs else none

/-- A word character of the regular expression at worker.js line 138. -/
def isWordChar (c : Char) : Bool := c.isAlphanum || c = '_'

/-- thumbData.replace of the leading data-URL prefix, worker.js
line 138: the prefix data:image followed by word characters and
base64 markers is removed when present, otherwise the string is kept. -/
def stripDataUrl (s : String) : String :=
  match dropPrefixL ("data:image/").data s.data with
  | none => s
  | some rest =>
    match rest.takeWhile isWordChar, rest.dropWhile isWordChar with
    | [], _ => s
    | _ :: _, rest₂ =>
      match dropPrefixL (";base64,").data rest₂ with
      | none => s
      | some tail => String.mk tail

/-- JavaScript truthiness of the thumb field: an empty string is falsy,
a blob object is always truthy (worker.js line 134). -/
def thumbTruthy : ThumbData → Bool
  | .str s => if s = "" then false else true
  | .blob _ => true

/-- The body written to the thumbnail key: a string thumb is decoded
(worker.js lines 136-142), a blob thumb is streamed directly
(line 144); a decode throw propagates. -/
def thumbBytes : ThumbData → Except String (List Nat)
  | .str s =>
    match jsAtob (stripDataUrl s) with
    | some b => .ok b
    | none => .error atobErrorMessage
  | .blob c => .ok c

/-- The R2 object written for the original photo, worker.js
lines 124-131. -/
def photoBlob (file : FileData) (groupId fname : String) : Blob :=
  { body := .bytes file.content
  , contentType := some (jsOr file.type "image/jpeg")
  , customGroupId := some groupId
  , customOriginalName := some fname }

/-- The metadata update of worker.js lines 154-160: increment photoCount
and push exactly one record. -/
def appendPhoto (m : SessionMeta) (fname groupId : String)
    (file : FileData) : SessionMeta :=
  { m with
    photoCount := m.photoCount + 1
  , photos := m.photos ++
      [{ fname := fname, groupId := groupId, size := file.size
       , type := file.type }] }

/-- worker.js lines 134-151: when a truthy thumb was supplied, decode it
if it is a string and put it under the thumbnail key; an atob throw
propagates as an error. -/
def thumbPut (sessionId fname : String) (td : Option ThumbData)
    (st : Store) : Except String Store :=
  match td with
  | none => .ok st
  | some t =>
    if thumbTruthy t then
      match thumbBytes t with
      | .error e => .error e
      | .ok b =>
        .ok (Store.put st (thumbKey sessionId fname)
          { body := .bytes b, contentType := some "image/jpeg" })
    else .ok st

/-- Success payload of the upload route: ok, fname, photoCount. -/
structure UploadOk where
  fname : String
  photoCount : Nat
deriving DecidableEq

/-- Result of the upload route: the response and the bucket after the
writes the route performed before responding. -/
structure UploadOut where
  resp : Resp UploadOk
  store : Store
deriving DecidableEq

/-- POST /api/session/:id/upload (worker.js lines 93-173), in source
order: read the metadata document (404 when absent, a parse throw
becomes a 500), check the photo limit, resolve the filename (a throw on
a null file becomes a 500), check file presence, check the size limit,
put the photo object, put the decoded thumbnail when one was supplied,
rewrite the metadata document with photoCount incremented and one
record appended.  A stored document that parses but is not well-formed
runs the same checks with the coerced observations; past the writes,
line 155 applies push to its photos member, which throws, so the
catch-all answers 500 with the photo (and thumbnail) already written
and the metadata never rewritten — an orphaned-blob outcome. -/
def uploadPhoto (env : Env) (store : Store) (sessionId : String)
    (form : FormData) : UploadOut :=
  match Store.get store (metaKey sessionId) with
  | none => ⟨.err "Session not found" 404, store⟩
  | some metaObj =>
    match jsonParse metaObj.body with
    | none => ⟨.err (internalMsg jsonParseErrorMessage) 500, store⟩
    | some (.junk j) =>
      if jsGeOpt j.photoCount (maxPhotosOf env) then
        ⟨.err ("Maximum " ++ toString (maxPhotosOf env) ++
          " photos per session") 429, store⟩
      else
        match resolveFname form with
        | .error e => ⟨.err (internalMsg e) 500, store⟩
        | .ok fname =>
          match form.file with
          | none => ⟨.err "No file provided" 400, store⟩
          | some file =>
            if file.size > maxSizeOf env then
              ⟨.err ("File too large (max " ++
                envNumStr env.MAX_FILE_SIZE_MB ++ "MB)") 400, store⟩
            else
              match thumbPut sessionId fname form.thumb
                  (Store.put store (photoKey sessionId fname)
                    (photoBlob file (form.groupId.getD "") fname)) with
              | .error e =>
                ⟨.err (internalMsg e) 500,
                 Store.put store (photoKey sessionId fname)
                   (photoBlob file (form.groupId.getD "") fname)⟩
              | .ok st₂ =>
                ⟨.err (internalMsg typeErrorPushMessage) 500, st₂⟩
    | some (.session meta) =>
      if meta.photoCount ≥ maxPhotosOf env then
        ⟨.err ("Maximum " ++ toString (maxPhotosOf env) ++
          " photos per session") 429, store⟩
      else
        match resolveFname form with
        | .error e => ⟨.err (internalMsg e) 500, store⟩
        | .ok fname =>
          match form.file with
          | none => ⟨.err "No file provided" 400, store⟩
          | some file =>
            if file.size > maxSizeOf env then
              ⟨.err ("File too large (max " ++
                envNumStr env.MAX_FILE_SIZE_MB ++ "MB)") 400, store⟩
            else
              match thumbPut sessionId fname form.thumb
                  (Store.put store (photoKey sessionId fname)
                    (photoBlob file (form.groupId.getD "") fname)) with
              | .error e =>
                ⟨.err (internalMsg e) 500,
                 Store.put store (photoKey sessionId fname)
                   (photoBlob file (form.groupId.getD "") fname)⟩
              | .ok st₂ =>
                ⟨.ok ⟨fname, meta.photoCount + 1⟩,
                 Store.put st₂ (metaKey sessionId)
                   { body := .doc (appendPhoto meta fname
                       (form.groupId.getD "") file)
                   , contentType := some "application/json" }⟩

/-- The asset kind of the two GET asset routes. -/
inductive AssetKind where
  | photo
  | thumb
deriving DecidableEq

/-- Success payload of an asset fetch: the streamed body, the
Content-Type header, and the Cache-Control header. -/
structure AssetResp where
  body : BlobBody
  contentType : String
  cacheControl : String
deriving DecidableEq

/-- GET .../photo/:fname and GET .../thumb/:fname (worker.js
lines 176-220); fname is the decoded path segment.  No store is
returned: neither branch performs a put. -/
def fetchAsset (store : Store) (sessionId fname : String)
    (kind : AssetKind) : Resp AssetResp :=
  match kind with
  | .photo =>
    match Store.get store (photoKey sessionId fname) with
    | none => .err "Photo not found" 404
    | some obj =>
      .ok ⟨obj.body, jsOrOpt obj.contentType "image/jpeg",
        "public, max-age=86400"⟩
  | .thumb =>
    match Store.get store (thumbKey sessionId fname) with
    | some obj => .ok ⟨obj.body, "image/jpeg", "public, max-age=86400"⟩
    | none =>
      match Store.get store (photoKey sessionId fname) with
      | none => .err "Photo not found" 404
      | some fullObj =>
        .ok ⟨fullObj.body, jsOrOpt fullObj.contentType "image/jpeg",
          "public, max-age=86400"⟩

/-- The session document currently stored under the metadata key, when
present and parseable. -/
def metaAt (store : Store) (sessionId : String) : Option SessionMeta :=
  (Store.get store (metaKey sessionId)).bind fun b => parseMeta b.body

/-- Environment with no configuration variable set: all defaults. -/
def envDefault : Env := {}

/-- A fresh, unexpired-until-1000 session document used by witnesses. -/
def demoMeta : SessionMeta :=
  { id := "s1", title := "", photographer := "", groups := []
  , createdAt := 0, expiresAt := 1000, photoCount := 0, photos := [] }

/-- The stored object holding the demo session document. -/
def demoMetaBlob : Blob :=
  { body := .doc demoMeta, contentType := some "application/json" }

/-- A bucket holding only the demo session document. -/
def demoStore : Store := [(metaKey "s1", demoMetaBlob)]

/-- A small file part. -/
def demoFile : FileData :=
  { name := "x.jpg", size := 3, type := "image/jpeg", content := [1, 2, 3] }

/-- A small upload form: the demo file under the name a.jpg, no group,
no thumbnail. -/
def demoForm : FormData := { file := some demoFile, fname := some "a.jpg" }

/-- The session document createSession writes for the demo inputs
(identifier s1, current time 0, default 7-day TTL). -/
def createdDemo : SessionMeta :=
  { id := "s1", title := "", photographer := "", groups := []
  , createdAt := 0, expiresAt := 604800000, photoCount := 0, photos := [] }

/-- A session document that already lists one photo named a.jpg. -/
def dupMeta : SessionMeta :=
  { id := "s1", title := "", photographer := "", groups := []
  , createdAt := 0, expiresAt := 1000, photoCount := 1
  , photos := [{ fname := "a.jpg", groupId := "", size := 3
               , type := "image/jpeg" }] }

/-- The stored object holding that document. -/
def dupMetaBlob : Blob :=
  { body := .doc dupMeta, contentType := some "application/json" }

/-- A bucket holding the document with the existing a.jpg record. -/
def dupStore : Store := [(metaKey "s1", dupMetaBlob)]

/-- A stored object whose body is not a well-formed session document. -/
def corruptBlob : Blob :=
  { body := .bytes [123], contentType := some "application/json" }

/-- A bucket whose metadata key holds bytes that are not a well-formed
session document. -/
def corruptStore : Store := [(metaKey "s1", corruptBlob)]

/-- The parse observation of stored bytes such as a pair of braces:
valid JSON, not a Session document; it has no usable members, so every
observation is NaN-like. -/
def junkDoc : JunkDoc := {}

/-- The stored object holding that junk value. -/
def junkBlob : Blob :=
  { body := .json junkDoc, contentType := some "application/json" }

/-- A bucket whose metadata key holds the junk value. -/
def junkStore : Store := [(metaKey "s1", junkBlob)]

/-- A junk value whose expiresAt member does yield a valid (past)
date. -/
def junkExpiredDoc : JunkDoc := { expiresAt := some 1 }

/-- The stored object holding the expired junk value. -/
def junkExpiredBlob : Blob :=
  { body := .json junkExpiredDoc, contentType := some "application/json" }

/-- A bucket whose metadata key holds the expired junk value. -/
def junkExpiredStore : Store := [(metaKey "s1", junkExpiredBlob)]

/-- A session document whose stored photoCount is at the default limit. -/
def fullMeta : SessionMeta :=
  { id := "s1", title := "", photographer := "", groups := []
  , createdAt := 0, expiresAt := 1000, photoCount := 50, photos := [] }

/-- The stored object holding the full session document. -/
def fullMetaBlob : Blob :=
  { body := .doc fullMeta, contentType := some "application/json" }

/-- A bucket holding the full session document. -/
def fullStore : Store := [(metaKey "s1", fullMetaBlob)]

/-- A file part one byte over the default 25 MiB ceiling. -/
def bigFile : FileData :=
  { name := "big.jpg", size := 26214401, type := "", content := [0] }

/-- A stored thumbnail object. -/
def thumbBlobDemo : Blob := { body := .bytes [9], contentType := some "image/jpeg" }

/-- A stored photo object with a png content type. -/
def photoBlobDemo : Blob := { body := .bytes [1, 2, 3], contentType := some "image/png" }

/-- A bucket with both a thumbnail and a photo for a.jpg. -/
def storeWithThumb : Store :=
  [(thumbKey "s1" "a.jpg", thumbBlobDemo), (photoKey "s1" "a.jpg", photoBlobDemo)]

/-- A bucket with a photo but no thumbnail for a.jpg. -/
def storePhotoOnly : Store :=
  [(photoKey "s1" "a.jpg", photoBlobDemo)]

/-- A bucket holding an expired session document together with a photo
and a thumbnail (demoMeta expires at 1000). -/
def expiredStore : Store :=
  [(metaKey "s1", { body := .doc demoMeta
                  , contentType := some "application/json" })
  , (photoKey "s1" "a.jpg", photoBlobDemo)
  , (thumbKey "s1" "a.jpg", thumbBlobDemo)]

/-! ### Helper lemmas -/

/-- A body that reads back as a well-formed Session document parses to
exactly that document. -/
lemma jsonParse_of_parseMeta (b : BlobBody) (m : SessionMeta)
    (h : parseMeta b = some m) : jsonParse b = some (.session m) := by
  cases b with
  | doc m' =>
    simp only [parseMeta, Option.some.injEq] at h
    simp [jsonParse, h]
  | json j => simp [parseMeta] at h
  | bytes data => simp [parseMeta] at h

lemma metaKey_ne_photoKey (sid f : String) : metaKey sid ≠ photoKey sid f := by
  intro h
  have h₁ : (metaKey sid).data = (photoKey sid f).data := congrArg String.data h
  simp only [metaKey, photoKey, String.data_append, List.append_assoc] at h₁
  have h₂ := List.append_cancel_left (List.append_cancel_left h₁)
  simp at h₂

lemma metaKey_ne_thumbKey (sid f : String) : metaKey sid ≠ thumbKey sid f := by
  intro h
  have h₁ : (metaKey sid).data = (thumbKey sid f).data := congrArg String.data h
  simp only [metaKey, thumbKey, String.data_append, List.append_assoc] at h₁
  have h₂ := List.append_cancel_left (List.append_cancel_left h₁)
  simp at h₂

lemma thumbKey_ne_photoKey (sid f : String) : thumbKey sid f ≠ photoKey sid f := by
  intro h
  have h₁ : (thumbKey sid f).data = (photoKey sid f).data := congrArg String.data h
  simp only [thumbKey, photoKey, String.data_append, List.append_assoc] at h₁
  have h₂ := List.append_cancel_left (List.append_cancel_left h₁)
  simp at h₂

/-- Evaluation of the upload route along its success path: all the
admission checks pass, the thumbnail step succeeds, and the route
responds ok after writing the photo object, the optional thumbnail, and
the updated metadata document (in that order). -/
lemma uploadPhoto_ok_eq (env : Env) (store : Store) (sid : String)
    (form : FormData) (blob : Blob) (m : SessionMeta) (f : String)
    (file : FileData) (st₂ : Store)
    (hget : Store.get store (metaKey sid) = some blob)
    (hparse : parseMeta blob.body = some m)
    (hquota : m.photoCount < maxPhotosOf env)
    (hres : resolveFname form = .ok f)
    (hfile : form.file = some file)
    (hsize : ¬ file.size > maxSizeOf env)
    (hthumb : thumbPut sid f form.thumb
      (Store.put store (photoKey sid f)
        (photoBlob file (form.groupId.getD "") f)) = .ok st₂) :
    uploadPhoto env store sid form =
      ⟨.ok ⟨f, m.photoCount + 1⟩,
       Store.put st₂ (metaKey sid)
         { body := .doc (appendPhoto m f (form.groupId.getD "") file)
         , contentType := some "application/json" }⟩ := by
  unfold uploadPhoto
  rw [hget]
  simp only [jsonParse_of_parseMeta blob.body m hparse, hres, hfile, hthumb,
    if_neg (Nat.not_le.mpr hquota), if_neg hsize]

/-- After a successful thumbnail step over a store whose newest binding
is the photo object, the photo object is still the newest binding for
its key. -/
lemma get_photoKey_thumbPut (sid f : String) (b : Blob) (st st₂ : Store)
    (td : Option ThumbData)
    (h : thumbPut sid f td (Store.put st (photoKey sid f) b) = .ok st₂) :
    Store.get st₂ (photoKey sid f) = some b := by
  cases td with
  | none =>
    cases h
    simp [Store.get, Store.put]
  | some t =>
    simp only [thumbPut] at h
    by_cases ht : thumbTruthy t
    · rw [if_pos ht] at h
      cases hb : thumbBytes t with
      | error e => rw [hb] at h; cases h
      | ok bs =>
        rw [hb] at h
        cases h
        simp [Store.get, Store.put, thumbKey_ne_photoKey sid f]
    · rw [if_neg ht] at h
      cases h
      simp [Store.get, Store.put]

/-! ### Claim theorems -/

/-- C1: photoCount always equals the length of the photos list: the
document written by createSession has photoCount 0 and an empty photos
list, and every successful uploadPhoto rewrites the document with
photoCount incremented by exactly one and exactly one record appended,
so the equality is preserved. -/
theorem c1_photoCount_eq_length :
    (∀ env store sid body now m,
      metaAt (createSession env store sid body now).2 sid = some m →
      m.photoCount = 0 ∧ m.photos = []) ∧
    (∀ env store sid form blob m f file st₂,
      Store.get store (metaKey sid) = some blob →
      parseMeta blob.body = some m →
      m.photoCount < maxPhotosOf env →
      resolveFname form = .ok f →
      form.file = some file →
      ¬ file.size > maxSizeOf env →
      thumbPut sid f form.thumb
        (Store.put store (photoKey sid f)
          (photoBlob file (form.groupId.getD "") f)) = .ok st₂ →
      m.photoCount = m.photos.length →
      metaAt (uploadPhoto env store sid form).store sid =
          some (appendPhoto m f (form.groupId.getD "") file) ∧
        (appendPhoto m f (form.groupId.getD "") file).photoCount =
          m.photoCount + 1 ∧
        (appendPhoto m f (form.groupId.getD "") file).photos =
          m.photos ++ [⟨f, form.groupId.getD "", file.size, file.type⟩] ∧
        (appendPhoto m f (form.groupId.getD "") file).photoCount =
          (appendPhoto m f (form.groupId.getD "") file).photos.length) := by
  constructor
  · intro env store sid body now m hm
    simp [createSession, metaAt, Store.get, Store.put, parseMeta] at hm
    subst hm
    exact ⟨rfl, rfl⟩
  · intro env store sid form blob m f file st₂ hget hparse hquota hres
      hfile hsize hthumb hlen
    rw [uploadPhoto_ok_eq env store sid form blob m f file st₂ hget hparse
      hquota hres hfile hsize hthumb]
    refine ⟨?_, rfl, rfl, ?_⟩
    · simp [metaAt, Store.get, Store.put, parseMeta]
    · simp [appendPhoto, hlen]

theorem c1_photoCount_eq_length_witness :
    (createdDemo.photoCount = 0 ∧ createdDemo.photos = []) ∧
    (metaAt (uploadPhoto envDefault demoStore "s1" demoForm).store "s1" =
        some (appendPhoto demoMeta "a.jpg" "" demoFile) ∧
      (appendPhoto demoMeta "a.jpg" "" demoFile).photoCount =
        demoMeta.photoCount + 1 ∧
      (appendPhoto demoMeta "a.jpg" "" demoFile).photos =
        demoMeta.photos ++ [⟨"a.jpg", "", demoFile.size, demoFile.type⟩] ∧
      (appendPhoto demoMeta "a.jpg" "" demoFile).photoCount =
        (appendPhoto demoMeta "a.jpg" "" demoFile).photos.length) := by
  constructor
  · exact c1_photoCount_eq_length.1 envDefault [] "s1" {} 0 createdDemo
      (by decide)
  · have h := c1_photoCount_eq_length.2 envDefault demoStore "s1" demoForm
      demoMetaBlob demoMeta "a.jpg" demoFile
      (Store.put demoStore (photoKey "s1" "a.jpg")
        (photoBlob demoFile "" "a.jpg"))
      (by decide) (by decide) (by decide) rfl rfl
      (by decide) rfl (by decide)
    simpa using h

/-- C2: when the stored photo count has reached the configured maximum,
uploadPhoto fails with the quota message (HTTP 429) naming the
configured limit, before parsing the form and before any write: the
store is returned unmodified. -/
theorem c2_quota_exceeded (env : Env) (store : Store) (sid : String)
    (form : FormData) (blob : Blob) (m : SessionMeta)
    (hget : Store.get store (metaKey sid) = some blob)
    (hparse : parseMeta blob.body = some m)
    (hquota : maxPhotosOf env ≤ m.photoCount) :
    uploadPhoto env store sid form =
      ⟨.err ("Maximum " ++ toString (maxPhotosOf env) ++
        " photos per session") 429, store⟩ := by
  unfold uploadPhoto
  rw [hget]
  simp only [jsonParse_of_parseMeta blob.body m hparse, if_pos hquota]

theorem c2_quota_exceeded_witness :
    uploadPhoto envDefault fullStore "s1" {} =
      ⟨.err "Maximum 50 photos per session" 429, fullStore⟩ := by
  have h := c2_quota_exceeded envDefault fullStore "s1" {} fullMetaBlob
    fullMeta (by decide) (by decide) (by decide)
  exact h.trans (by decide)

/-- C3: when the declared file size exceeds the configured maximum, the
upload fails with status 400 and the store is returned unmodified —
nothing is written — but the message interpolates the raw
MAX_FILE_SIZE_MB environment variable, so under the default
configuration (variable unset, limit 25 MiB) the message reads
undefined instead of the limit: see the witness. -/
theorem c3_size_check (env : Env) (store : Store) (sid : String)
    (form : FormData) (blob : Blob) (m : SessionMeta) (f : String)
    (file : FileData)
    (hget : Store.get store (metaKey sid) = some blob)
    (hparse : parseMeta blob.body = some m)
    (hquota : m.photoCount < maxPhotosOf env)
    (hres : resolveFname form = .ok f)
    (hfile : form.file = some file)
    (hsize : file.size > maxSizeOf env) :
    uploadPhoto env store sid form =
      ⟨.err ("File too large (max " ++ envNumStr env.MAX_FILE_SIZE_MB ++
        "MB)") 400, store⟩ := by
  unfold uploadPhoto
  rw [hget]
  simp only [jsonParse_of_parseMeta blob.body m hparse, hres, hfile,
    if_neg (Nat.not_le.mpr hquota), if_pos hsize]

theorem c3_size_check_witness :
    uploadPhoto envDefault demoStore "s1"
        { file := some bigFile, fname := some "big.jpg" } =
      ⟨.err "File too large (max undefinedMB)" 400, demoStore⟩ := by
  have h := c3_size_check envDefault demoStore "s1"
    { file := some bigFile, fname := some "big.jpg" } demoMetaBlob demoMeta
    "big.jpg" bigFile (by decide) (by decide) (by decide) rfl rfl (by decide)
  exact h.trans (by decide)

/-- C4: the missing-file path: worker.js line 111
(formData.get(fname) || file.name) runs before the null check at line
115.  With a truthy fname field and no file the route answers 400 No
file provided, but when the fname field is also absent the null
dereference throws a TypeError and the catch-all answers 500 Internal —
not a BadRequest. -/
theorem c4_missing_file (env : Env) (store : Store) (sid : String)
    (blob : Blob) (m : SessionMeta) (g : Option String)
    (t : Option ThumbData)
    (hget : Store.get store (metaKey sid) = some blob)
    (hparse : parseMeta blob.body = some m)
    (hquota : m.photoCount < maxPhotosOf env) :
    uploadPhoto env store sid
        { file := none, fname := none, groupId := g, thumb := t } =
      ⟨.err (internalMsg typeErrorNullName) 500, store⟩ ∧
    (∀ f', f' ≠ "" →
      uploadPhoto env store sid
          { file := none, fname := some f', groupId := g, thumb := t } =
        ⟨.err "No file provided" 400, store⟩) := by
  constructor
  · unfold uploadPhoto
    rw [hget]
    simp only [jsonParse_of_parseMeta blob.body m hparse,
      if_neg (Nat.not_le.mpr hquota), resolveFname]
  · intro f' hf'
    unfold uploadPhoto
    rw [hget]
    simp only [jsonParse_of_parseMeta blob.body m hparse,
      if_neg (Nat.not_le.mpr hquota), resolveFname, if_neg hf']

theorem c4_missing_file_witness :
    uploadPhoto envDefault demoStore "s1"
        { file := none, fname := none, groupId := none, thumb := none } =
      ⟨.err (internalMsg typeErrorNullName) 500, demoStore⟩ ∧
    uploadPhoto envDefault demoStore "s1"
        { file := none, fname := some "a.jpg", groupId := none
        , thumb := none } =
      ⟨.err "No file provided" 400, demoStore⟩ := by
  have h := c4_missing_file envDefault demoStore "s1" demoMetaBlob demoMeta
    none none (by decide) (by decide) (by decide)
  exact ⟨h.1, h.2 "a.jpg" (by decide)⟩

/-- C6 counterexample: no CorruptMetadata error kind exists.  A stored
body that is valid JSON but not a well-formed Session document (the
junk value, the parse of a bare braces document) does not make
getSession fail at all: it is returned with a 200, its absent expiresAt
member comparing as NaN.  A stored body that is not valid JSON makes
JSON.parse throw, and the failure is the generic catch-all Internal
response (status 500), not a distinct kind. -/
theorem c6_counterexample :
    getSession junkStore "s1" 0 = (.ok (.junk junkDoc), junkStore) ∧
    getSession corruptStore "s1" 0 =
      (.err (internalMsg jsonParseErrorMessage) 500, corruptStore) := by
  decide

/-- C6 amended: getSession detects only syntactic corruption, and not
through a distinct kind: when the metadata key holds bytes that are not
valid JSON, JSON.parse throws and the generic catch-all answers 500
with the Internal server error message.  Bytes that are valid JSON but
not a well-formed Session document pass through undetected: getSession
returns the junk document with a 200 when its expiresAt member does not
compare earlier than now (a NaN comparison is false), and answers 410
Session expired when it does. -/
theorem c6_corrupt_metadata_internal :
    (∀ store sid now blob data,
      Store.get store (metaKey sid) = some blob →
      blob.body = .bytes data →
      getSession store sid now =
        (.err (internalMsg jsonParseErrorMessage) 500, store)) ∧
    (∀ store sid now blob j,
      Store.get store (metaKey sid) = some blob →
      blob.body = .json j →
      jsDateLt j.expiresAt now = false →
      getSession store sid now = (.ok (.junk j), store)) ∧
    (∀ store sid now blob j,
      Store.get store (metaKey sid) = some blob →
      blob.body = .json j →
      jsDateLt j.expiresAt now = true →
      getSession store sid now = (.err "Session expired" 410, store)) := by
  refine ⟨?_, ?_, ?_⟩
  · intro store sid now blob data hget hbody
    unfold getSession
    rw [hget]
    simp only [hbody, jsonParse]
  · intro store sid now blob j hget hbody hdate
    unfold getSession
    rw [hget]
    simp only [hbody, jsonParse, ParsedMeta.expiresAt, hdate]
    simp
  · intro store sid now blob j hget hbody hdate
    unfold getSession
    rw [hget]
    simp only [hbody, jsonParse, ParsedMeta.expiresAt, hdate]
    simp

theorem c6_corrupt_metadata_internal_witness :
    getSession corruptStore "s1" 5 =
      (.err (internalMsg jsonParseErrorMessage) 500, corruptStore) ∧
    getSession junkStore "s1" 5 = (.ok (.junk junkDoc), junkStore) ∧
    getSession junkExpiredStore "s1" 5 =
      (.err "Session expired" 410, junkExpiredStore) :=
  ⟨c6_corrupt_metadata_internal.1 corruptStore "s1" 5 corruptBlob [123]
      (by decide) (by decide)
  , c6_corrupt_metadata_internal.2.1 junkStore "s1" 5 junkBlob junkDoc
      (by decide) (by decide) (by decide)
  , c6_corrupt_metadata_internal.2.2 junkExpiredStore "s1" 5
      junkExpiredBlob junkExpiredDoc (by decide) (by decide) (by decide)⟩

/-- C5: getSession on a well-formed stored document whose expiry
timestamp is strictly earlier than the current time fails with
Session expired (HTTP 410), and the store is returned unchanged: the
branch performs no put, so the document is neither deleted nor
rewritten. -/
theorem c5_expired_read (store : Store) (sid : String) (now : Nat)
    (blob : Blob) (m : SessionMeta)
    (hget : Store.get store (metaKey sid) = some blob)
    (hparse : parseMeta blob.body = some m)
    (hexp : m.expiresAt < now) :
    getSession store sid now = (.err "Session expired" 410, store) := by
  unfold getSession
  rw [hget]
  simp [jsonParse_of_parseMeta blob.body m hparse, ParsedMeta.expiresAt,
    jsDateLt, hexp]

theorem c5_expired_read_witness :
    getSession demoStore "s1" 2000 = (.err "Session expired" 410, demoStore) :=
  c5_expired_read demoStore "s1" 2000 demoMetaBlob demoMeta (by decide)
    (by decide) (by decide)

/-- C7: the thumbnail route: when the thumbnail key exists its body is
returned; when it is absent but the photo key exists, the photo body is
returned with the photo's stored content type; when neither exists the
route fails 404 Photo not found. -/
theorem c7_thumbnail_fallback (store : Store) (sid f : String) :
    (∀ obj, Store.get store (thumbKey sid f) = some obj →
      fetchAsset store sid f .thumb =
        .ok ⟨obj.body, "image/jpeg", "public, max-age=86400"⟩) ∧
    (Store.get store (thumbKey sid f) = none →
      ∀ obj, Store.get store (photoKey sid f) = some obj →
      fetchAsset store sid f .thumb =
        .ok ⟨obj.body, jsOrOpt obj.contentType "image/jpeg",
          "public, max-age=86400"⟩) ∧
    (Store.get store (thumbKey sid f) = none →
      Store.get store (photoKey sid f) = none →
      fetchAsset store sid f .thumb = .err "Photo not found" 404) := by
  refine ⟨?_, ?_, ?_⟩
  · intro obj h
    simp only [fetchAsset, h]
  · intro h obj h₂
    simp only [fetchAsset, h, h₂]
  · intro h h₂
    simp only [fetchAsset, h, h₂]

theorem c7_thumbnail_fallback_witness :
    fetchAsset storeWithThumb "s1" "a.jpg" .thumb =
      .ok ⟨.bytes [9], "image/jpeg", "public, max-age=86400"⟩ ∧
    fetchAsset storePhotoOnly "s1" "a.jpg" .thumb =
      .ok ⟨.bytes [1, 2, 3], "image/png", "public, max-age=86400"⟩ ∧
    fetchAsset demoStore "s1" "a.jpg" .thumb =
      .err "Photo not found" 404 := by
  refine ⟨?_, ?_, ?_⟩
  · have h := (c7_thumbnail_fallback storeWithThumb "s1" "a.jpg").1
      thumbBlobDemo (by decide)
    exact h.trans (by decide)
  · have h := (c7_thumbnail_fallback storePhotoOnly "s1" "a.jpg").2.1
      (by decide) photoBlobDemo (by decide)
    exact h.trans (by decide)
  · exact (c7_thumbnail_fallback demoStore "s1" "a.jpg").2.2 (by decide)
      (by decide)

/-- C8: expiry is enforced only by getSession: uploadPhoto makes no
expiry comparison, so an upload to an existing session succeeds even
when the stored expiry timestamp is already earlier than the current
time, and fetchAsset makes no expiry comparison, so photo and thumbnail
objects remain fetchable after expiry. -/
theorem c8_expiry_only_on_get :
    (∀ env store sid form blob m f file st₂ now,
      Store.get store (metaKey sid) = some blob →
      parseMeta blob.body = some m →
      m.expiresAt < now →
      m.photoCount < maxPhotosOf env →
      resolveFname form = .ok f →
      form.file = some file →
      ¬ file.size > maxSizeOf env →
      thumbPut sid f form.thumb
        (Store.put store (photoKey sid f)
          (photoBlob file (form.groupId.getD "") f)) = .ok st₂ →
      (uploadPhoto env store sid form).resp = .ok ⟨f, m.photoCount + 1⟩) ∧
    (∀ store sid f blob m now obj,
      Store.get store (metaKey sid) = some blob →
      parseMeta blob.body = some m →
      m.expiresAt < now →
      Store.get store (photoKey sid f) = some obj →
      fetchAsset store sid f .photo =
        .ok ⟨obj.body, jsOrOpt obj.contentType "image/jpeg",
          "public, max-age=86400"⟩) ∧
    (∀ store sid f blob m now obj,
      Store.get store (metaKey sid) = some blob →
      parseMeta blob.body = some m →
      m.expiresAt < now →
      Store.get store (thumbKey sid f) = some obj →
      fetchAsset store sid f .thumb =
        .ok ⟨obj.body, "image/jpeg", "public, max-age=86400"⟩) := by
  refine ⟨?_, ?_, ?_⟩
  · intro env store sid form blob m f file st₂ now hget hparse _ hquota
      hres hfile hsize hthumb
    rw [uploadPhoto_ok_eq env store sid form blob m f file st₂ hget hparse
      hquota hres hfile hsize hthumb]
  · intro store sid f blob m now obj _ _ _ h
    simp only [fetchAsset, h]
  · intro store sid f blob m now obj _ _ _ h
    simp only [fetchAsset, h]

theorem c8_expiry_only_on_get_witness :
    demoMeta.expiresAt < 2000 ∧
    (uploadPhoto envDefault expiredStore "s1" demoForm).resp =
      .ok ⟨"a.jpg", 1⟩ ∧
    fetchAsset expiredStore "s1" "a.jpg" .photo =
      .ok ⟨.bytes [1, 2, 3], "image/png", "public, max-age=86400"⟩ ∧
    fetchAsset expiredStore "s1" "a.jpg" .thumb =
      .ok ⟨.bytes [9], "image/jpeg", "public, max-age=86400"⟩ := by
  refine ⟨by decide, ?_, ?_, ?_⟩
  · have h := c8_expiry_only_on_get.1 envDefault expiredStore "s1" demoForm
      demoMetaBlob demoMeta "a.jpg" demoFile _ 2000 (by decide) (by decide)
      (by decide) (by decide) rfl rfl (by decide) rfl
    simpa using h
  · have h := c8_expiry_only_on_get.2.1 expiredStore "s1" "a.jpg"
      demoMetaBlob demoMeta 2000 photoBlobDemo (by decide) (by decide)
      (by decide) (by decide)
    exact h.trans (by decide)
  · have h := c8_expiry_only_on_get.2.2 expiredStore "s1" "a.jpg"
      demoMetaBlob demoMeta 2000 thumbBlobDemo (by decide) (by decide)
      (by decide) (by decide)
    exact h.trans (by decide)

/-- C9 counterexample: the caller-supplied filename is neither rejected
nor normalized: an upload whose filename carries path separators and
traversal sequences succeeds, and the photo object is stored under the
raw concatenated key with the traversal sequence kept verbatim. -/
theorem c9_counterexample :
    (uploadPhoto envDefault demoStore "s1"
        { file := some demoFile, fname := some "../../etc/x" }).resp =
      .ok ⟨"../../etc/x", 1⟩ ∧
    Store.get (uploadPhoto envDefault demoStore "s1"
        { file := some demoFile, fname := some "../../etc/x" }).store
        "sessions/s1/photos/../../etc/x" =
      some (photoBlob demoFile "" "../../etc/x") := by
  decide

/-- C9 amended: uploadPhoto performs no rejection and no normalization
of the caller-supplied filename: any resolved filename, including one
containing path separators or traversal sequences, is accepted, and the
photo object is written under the verbatim string concatenation of
sessions/, the session identifier, /photos/ and the filename. -/
theorem c9_filename_used_verbatim (env : Env) (store : Store)
    (sid : String) (form : FormData) (blob : Blob) (m : SessionMeta)
    (f : String) (file : FileData) (st₂ : Store)
    (hget : Store.get store (metaKey sid) = some blob)
    (hparse : parseMeta blob.body = some m)
    (hquota : m.photoCount < maxPhotosOf env)
    (hres : resolveFname form = .ok f)
    (hfile : form.file = some file)
    (hsize : ¬ file.size > maxSizeOf env)
    (hthumb : thumbPut sid f form.thumb
      (Store.put store (photoKey sid f)
        (photoBlob file (form.groupId.getD "") f)) = .ok st₂) :
    (uploadPhoto env store sid form).resp = .ok ⟨f, m.photoCount + 1⟩ ∧
    Store.get (uploadPhoto env store sid form).store
        ("sessions/" ++ sid ++ "/photos/" ++ f) =
      some (photoBlob file (form.groupId.getD "") f) := by
  rw [uploadPhoto_ok_eq env store sid form blob m f file st₂ hget hparse
    hquota hres hfile hsize hthumb]
  constructor
  · rfl
  · show Store.get (Store.put st₂ (metaKey sid)
        { body := .doc (appendPhoto m f (form.groupId.getD "") file)
        , contentType := some "application/json" }) (photoKey sid f) =
      some (photoBlob file (form.groupId.getD "") f)
    simp only [Store.put, Store.get, if_neg (metaKey_ne_photoKey sid f)]
    exact get_photoKey_thumbPut sid f _ store st₂ form.thumb hthumb

theorem c9_filename_used_verbatim_witness :
    (uploadPhoto envDefault demoStore "s1"
        { file := some demoFile, fname := some "../b/../c.jpg" }).resp =
      .ok ⟨"../b/../c.jpg", 1⟩ ∧
    Store.get (uploadPhoto envDefault demoStore "s1"
        { file := some demoFile, fname := some "../b/../c.jpg" }).store
        ("sessions/" ++ "s1" ++ "/photos/" ++ "../b/../c.jpg") =
      some (photoBlob demoFile "" "../b/../c.jpg") := by
  have h := c9_filename_used_verbatim envDefault demoStore "s1"
    { file := some demoFile, fname := some "../b/../c.jpg" } demoMetaBlob
    demoMeta "../b/../c.jpg" demoFile _ (by decide) (by decide) (by decide)
    rfl rfl (by decide) rfl
  simpa using h

/-- C10: a successful upload whose filename already appears in the
photos list overwrites the photo object at that key with the new bytes,
yet still appends a new record and still increments photoCount: the
list then holds the filename at least twice, and photoCount counts
successful upload calls rather than distinct stored keys. -/
theorem c10_duplicate_filename (env : Env) (store : Store) (sid : String)
    (form : FormData) (blob : Blob) (m : SessionMeta) (f : String)
    (file : FileData) (st₂ : Store)
    (hget : Store.get store (metaKey sid) = some blob)
    (hparse : parseMeta blob.body = some m)
    (hquota : m.photoCount < maxPhotosOf env)
    (hres : resolveFname form = .ok f)
    (hfile : form.file = some file)
    (hsize : ¬ file.size > maxSizeOf env)
    (hthumb : thumbPut sid f form.thumb
      (Store.put store (photoKey sid f)
        (photoBlob file (form.groupId.getD "") f)) = .ok st₂)
    (hdup : f ∈ m.photos.map PhotoRecord.fname) :
    (uploadPhoto env store sid form).resp = .ok ⟨f, m.photoCount + 1⟩ ∧
    Store.get (uploadPhoto env store sid form).store (photoKey sid f) =
      some (photoBlob file (form.groupId.getD "") f) ∧
    metaAt (uploadPhoto env store sid form).store sid =
      some (appendPhoto m f (form.groupId.getD "") file) ∧
    (appendPhoto m f (form.groupId.getD "") file).photoCount =
      m.photoCount + 1 ∧
    2 ≤ ((appendPhoto m f (form.groupId.getD "") file).photos.filter
      (fun r => r.fname == f)).length := by
  rw [uploadPhoto_ok_eq env store sid form blob m f file st₂ hget hparse
    hquota hres hfile hsize hthumb]
  refine ⟨rfl, ?_, ?_, rfl, ?_⟩
  · show Store.get (Store.put st₂ (metaKey sid)
        { body := .doc (appendPhoto m f (form.groupId.getD "") file)
        , contentType := some "application/json" }) (photoKey sid f) =
      some (photoBlob file (form.groupId.getD "") f)
    simp only [Store.put, Store.get, if_neg (metaKey_ne_photoKey sid f)]
    exact get_photoKey_thumbPut sid f _ store st₂ form.thumb hthumb
  · simp [metaAt, Store.get, Store.put, parseMeta]
  · obtain ⟨r, hr, hrf⟩ := List.mem_map.mp hdup
    have h₁ : r ∈ m.photos.filter (fun q => q.fname == f) :=
      List.mem_filter.mpr ⟨hr, by simp [hrf]⟩
    have h₂ : 0 < (m.photos.filter (fun q => q.fname == f)).length :=
      List.length_pos_of_mem h₁
    simp only [appendPhoto, List.filter_append, List.length_append]
    simp only [List.filter, beq_self_eq_true, List.length_cons,
      List.length_nil]
    omega

theorem c10_duplicate_filename_witness :
    (uploadPhoto envDefault dupStore "s1" demoForm).resp =
      .ok ⟨"a.jpg", 2⟩ ∧
    Store.get (uploadPhoto envDefault dupStore "s1" demoForm).store
        (photoKey "s1" "a.jpg") =
      some (photoBlob demoFile "" "a.jpg") ∧
    metaAt (uploadPhoto envDefault dupStore "s1" demoForm).store "s1" =
      some (appendPhoto dupMeta "a.jpg" "" demoFile) ∧
    2 ≤ ((appendPhoto dupMeta "a.jpg" "" demoFile).photos.filter
      (fun r => r.fname == "a.jpg")).length := by
  have h := c10_duplicate_filename envDefault dupStore "s1" demoForm
    dupMetaBlob dupMeta "a.jpg" demoFile _ (by decide) (by decide)
    (by decide) rfl rfl (by decide) rfl (by decide)
  exact ⟨by simpa using h.1, by simpa using h.2.1, by simpa using h.2.2.1,
    by simpa using h.2.2.2.2⟩

end Selekt
